import Mathlib

/-!
Verification of the transcript-service core of `src/app.py`.

The Python source is shallowly embedded: strings become `List Char`,
Python `float` timing values become `Rat`, JSON response dictionaries
become a record whose `Option` fields mark which keys are present, and
the two upstream capabilities of the captioning provider (fetch-by-id,
list-tracks-by-id) are parameters of the request handlers, returning
`Except` values in place of raised exceptions.
-/

namespace YTApp

/-- The character class `[0-9A-Za-z_-]` used by every pattern of
`extract_video_id`. -/
def isIdChar (c : Char) : Bool :=
  c.isDigit || c.isUpper || c.isLower || c == '_' || c == '-'

/-- Helper `grabN n s` models the regex piece `[0-9A-Za-z_-]{n}` anchored at the
current position: it succeeds with the first `n` characters exactly when at
least `n` characters remain and all of the first `n` are in the class. -/
def grabN : Nat → List Char → Option (List Char)
  | 0, _ => some []
  | _ + 1, [] => none
  | n + 1, c :: rest =>
    if isIdChar c then Option.map (fun t => c :: t) (grabN n rest) else none

/-- The capture group `([0-9A-Za-z_-]{11})` shared by the patterns of the source. -/
def take11Id (s : List Char) : Option (List Char) := grabN 11 s

/-- Pattern 1 of `extract_video_id`, `(?:v=|\/)([0-9A-Za-z_-]{11}).*`,
attempted at a single position: `v=` or `/` followed by eleven class
characters (the trailing `.*` is unconstrained). -/
def pat1 : List Char → Option (List Char)
  | [] => none
  | a :: rest =>
    if a == 'v' then
      match rest with
      | [] => none
      | b :: rest2 => if b == '=' then take11Id rest2 else none
    else if a == '/' then take11Id rest
    else none

/-- Literal-prefix matcher: patterns 2-5 of the source are a fixed literal
followed by the eleven-character capture group, attempted at one position. -/
def startsWithL : List Char → List Char → Bool
  | [], _ => true
  | _ :: _, [] => false
  | a :: as, b :: bs => a == b && startsWithL as bs

/-- One of the literal patterns (`embed/`, `watch?v=`, `youtu.be/`,
`youtube.com/shorts/`) attempted at a single position. -/
def patLit (lit : List Char) (s : List Char) : Option (List Char) :=
  if startsWithL lit s then take11Id (List.drop lit.length s) else none

/-- Python `re.search` semantics: try the single-position matcher at every start
position, left to right, returning the leftmost success. -/
def search (p : List Char → Option (List Char)) : List Char → Option (List Char)
  | [] => p []
  | c :: rest =>
    match p (c :: rest) with
    | some v => some v
    | none => search p rest

def embedLit : List Char := "embed/".toList
def watchLit : List Char := "watch?v=".toList
def youtuLit : List Char := "youtu.be/".toList
def shortsLit : List Char := "youtube.com/shorts/".toList

/-- The pattern list of the source, in its order. -/
def patterns : List (List Char → Option (List Char)) :=
  [pat1, patLit embedLit, patLit watchLit, patLit youtuLit, patLit shortsLit]

/-- Function `extract_video_id` of `src/app.py` (lines 223-236): the first pattern in
the list whose `re.search` succeeds supplies the captured group; `None`
otherwise. -/
def extract_video_id (url : List Char) : Option (List Char) :=
  patterns.findSome? (fun p => search p url)

example : extract_video_id "https://www.youtube.com/watch?v=dQw4w9WgXcQ".toList
    = some "dQw4w9WgXcQ".toList := by decide

example : extract_video_id "https://youtu.be/dQw4w9WgXcQ".toList
    = some "dQw4w9WgXcQ".toList := by decide

example : extract_video_id [] = none := by decide

example : extract_video_id "https://youtu.be/short".toList = none := by decide

example : extract_video_id "https://vimeo.com/123456789012".toList
    = some "12345678901".toList := by decide

/-- One timed transcript segment as delivered by the upstream provider:
a dictionary with keys `text`, `start` and `duration`. Timing floats are embedded
as rationals. -/
structure Segment where
  text : List Char
  start : Rat
  duration : Rat
deriving DecidableEq

/-- One caption-track descriptor as projected by `get_available_languages`
(lines 199-205): a dictionary with keys `language`, `language_code`,
`is_generated` and `is_translatable`. -/
structure Track where
  language : List Char
  language_code : List Char
  is_generated : Bool
  is_translatable : Bool
deriving DecidableEq

/-- A JSON response body. Each `Option` field records whether the
corresponding key is present in the dictionary the source builds; the JSON
key `transcript` holds segments in json mode and a string in text mode,
embedded as the two fields `transcript_segments` / `transcript_text`; the
JSON key `example` is embedded as `example_url`. `video_id` is doubly
optional because the source can emit the key with value `None`. -/
structure Payload where
  success : Bool
  error : Option (List Char) := none
  error_type : Option (List Char) := none
  example_url : Option (List Char) := none
  provided_url : Option (List Char) := none
  video_id : Option (Option (List Char)) := none
  language : Option (List Char) := none
  format : Option (List Char) := none
  transcript_segments : Option (List Segment) := none
  transcript_text : Option (List Char) := none
  word_count : Option Nat := none
  duration_seconds : Option Rat := none
  segments_count : Option Nat := none
  available_languages : Option (List Track) := none
  total_languages : Option Nat := none
  debug_info : Option (List Char) := none
deriving DecidableEq

/-- The whitespace set of the Python `str.split` method on ASCII text. -/
def pyIsSpace (c : Char) : Bool :=
  c == ' ' || c == '\t' || c == '\n' || c == '\x0b' || c == '\x0c' || c == '\r'

/-- Worker for `str.split()`: `w` is the (reversed) word currently being
accumulated; maximal runs of non-whitespace become words, empty words are
never produced. -/
def splitAux : List Char → List Char → List (List Char)
  | [], w => if w.isEmpty then [] else [w.reverse]
  | c :: rest, w =>
    if pyIsSpace c then
      if w.isEmpty then splitAux rest [] else w.reverse :: splitAux rest []
    else splitAux rest (c :: w)

/-- The argument-free Python `str.split`: split on runs of whitespace,
discarding empty pieces. -/
def pySplit (s : List Char) : List (List Char) := splitAux s []

/-- Join a list of strings with a newline between consecutive elements. -/
def joinNl : List (List Char) → List Char
  | [] => []
  | [x] => x
  | x :: y :: rest => x ++ '\n' :: joinNl (y :: rest)

/-- Modelled from the spec: the `TextFormatter.format_transcript` of the
upstream library is not part of this repository; per the spec it flattens
the segments into one text blob, textual content only, segments concatenated
with separating whitespace (the library joins the segment texts with a
newline). -/
def format_transcript (transcript_list : List Segment) : List Char :=
  joinNl (transcript_list.map (fun item => item.text))

/-- The conditional duration expression that both formatter branches inline
(lines 118 and 122): start of the last segment plus its duration when the
list is non-empty, else 0. -/
def last_end (transcript_list : List Segment) : Rat :=
  match transcript_list.getLast? with
  | some item => item.start + item.duration
  | none => 0

def en_lit : List Char := "en".toList
def json_lit : List Char := "json".toList
def text_lit : List Char := "text".toList

/-- The success-response construction of `get_transcript` (lines 107-134):
text mode when the `format` parameter is exactly `text`, json mode
otherwise. -/
def response_data (format_type video_id language : List Char)
    (transcript_list : List Segment) : Payload :=
  if format_type == text_lit then
    { success := true,
      video_id := some (some video_id),
      language := some language,
      format := some "text".toList,
      transcript_text := some (format_transcript transcript_list),
      word_count := some (List.length (pySplit (format_transcript transcript_list))),
      duration_seconds := some (last_end transcript_list) }
  else
    { success := true,
      video_id := some (some video_id),
      language := some language,
      format := some "json".toList,
      transcript_segments := some transcript_list,
      word_count := some
        (List.sum (transcript_list.map (fun item => List.length (pySplit item.text)))),
      duration_seconds := some (last_end transcript_list),
      segments_count := some transcript_list.length }

/-- Python substring containment (`needle in haystack`). -/
def containsSub (needle : List Char) : List Char → Bool
  | [] => startsWithL needle []
  | c :: rest => startsWithL needle (c :: rest) || containsSub needle rest

def no_transcripts_msg : List Char := "No transcripts were found".toList
def video_unavailable_msg : List Char := "Video unavailable".toList
def subtitles_disabled_msg : List Char := "Subtitles are disabled".toList

/-- The `except` branch of `get_transcript` (lines 139-173): substring
classification of the upstream failure text, in source order, first match
winning; note that the final `unknown` branch does not emit a `video_id`
key. -/
def transcript_error_response (error_message : List Char)
    (video_id : Option (List Char)) : Nat × Payload :=
  if containsSub no_transcripts_msg error_message then
    (404, { success := false,
            error := some "No transcripts available for this video".toList,
            error_type := some "no_transcript".toList,
            video_id := some video_id,
            debug_info := some "This video may not have captions enabled or may be restricted in this region".toList })
  else if containsSub video_unavailable_msg error_message then
    (404, { success := false,
            error := some "Video is unavailable or private".toList,
            error_type := some "unavailable".toList,
            video_id := some video_id })
  else if containsSub subtitles_disabled_msg error_message then
    (404, { success := false,
            error := some "Subtitles are disabled for this video".toList,
            error_type := some "subtitles_disabled".toList,
            video_id := some video_id,
            debug_info := some "Try a different video with captions enabled".toList })
  else
    (500, { success := false,
            error := some error_message,
            error_type := some "unknown".toList,
            debug_info := some "This might be a regional restriction or server IP blocking issue".toList })

/-- Python truthiness of `request.args.get(...)` for a string parameter:
`not video_url` is true when the key is absent or its value is the empty
string. -/
def py_falsy : Option (List Char) → Bool
  | none => true
  | some s => s.isEmpty

/-- The `/transcript` handler (lines 73-173). The identifier extractor and
the upstream fetch capability are parameters; the handler instantiates the
extractor with `extract_video_id` and the fetch with the provider call that
is handed the language priority list (requested language, then en) and either
returns the segment list or raises (embedded as `Except.error` carrying
`str(e)`). Result is the HTTP status code paired with the JSON body. -/
def get_transcript
    (extractor : List Char → Option (List Char))
    (fetch : List Char → List (List Char) → Except (List Char) (List Segment))
    (url language format_param : Option (List Char)) : Nat × Payload :=
  if py_falsy url then
    (400, { success := false,
            error := some "URL parameter is required".toList,
            example_url := some "/transcript?url=https://www.youtube.com/watch?v=VIDEO_ID".toList })
  else
    let video_url := url.getD []
    let lang := language.getD en_lit
    let format_type := format_param.getD json_lit
    match extractor video_url with
    | none =>
      (400, { success := false,
              error := some "Invalid YouTube URL format".toList,
              provided_url := some video_url })
    | some video_id =>
      match fetch video_id [lang, en_lit] with
      | Except.ok transcript_list =>
        (200, response_data format_type video_id lang transcript_list)
      | Except.error msg => transcript_error_response msg (some video_id)

/-- The `/transcript/languages` handler (lines 175-221). The upstream
`list_transcripts` capability is a parameter returning the iterated track
descriptors or the raised error text; every upstream failure lands in the
single `except` branch (500, `language_fetch_error`). -/
def get_available_languages
    (extractor : List Char → Option (List Char))
    (listTracks : List Char → Except (List Char) (List Track))
    (url : Option (List Char)) : Nat × Payload :=
  if py_falsy url then
    (400, { success := false,
            error := some "URL parameter is required".toList,
            example_url := some "/transcript/languages?url=https://www.youtube.com/watch?v=VIDEO_ID".toList })
  else
    match extractor (url.getD []) with
    | none =>
      (400, { success := false,
              error := some "Invalid YouTube URL format".toList,
              provided_url := some (url.getD []) })
    | some video_id =>
      match listTracks video_id with
      | Except.ok transcript_list =>
        (200, { success := true,
                video_id := some (some video_id),
                available_languages := some (transcript_list.map (fun t =>
                  Track.mk t.language t.language_code t.is_generated t.is_translatable)),
                total_languages := some transcript_list.length })
      | Except.error msg =>
        (500, { success := false,
                error := some msg,
                error_type := some "language_fetch_error".toList,
                debug_info := some "This might be a regional restriction or server IP blocking issue".toList })

example :
    (get_transcript extract_video_id
      (fun _ _ => Except.ok [Segment.mk "Hello".toList 0 1, Segment.mk "world".toList 1 1])
      (some "https://www.youtube.com/watch?v=dQw4w9WgXcQ".toList) none (some "text".toList)).2.transcript_text
      = some "Hello\nworld".toList := by decide

example :
    (get_transcript extract_video_id
      (fun _ _ => Except.error "boom".toList)
      (some "https://youtu.be/dQw4w9WgXcQ".toList) none none)
      = (500, { success := false, error := some "boom".toList,
                error_type := some "unknown".toList,
                debug_info := some "This might be a regional restriction or server IP blocking issue".toList }) := by
  decide

theorem extract_nil : extract_video_id [] = none := by decide

theorem py_falsy_of_ne_nil {u : List Char} (h : u ≠ []) : py_falsy (some u) = false := by
  cases u with
  | nil => exact absurd rfl h
  | cons c cs => rfl

theorem ne_nil_of_extract_some {u vid : List Char}
    (h : extract_video_id u = some vid) : u ≠ [] := by
  intro hnil
  rw [hnil, extract_nil] at h
  exact Option.noConfusion h

theorem response_data_duration (f v l : List Char) (tl : List Segment) :
    (response_data f v l tl).duration_seconds = some (last_end tl) := by
  unfold response_data
  split <;> rfl

theorem response_data_language (f v l : List Char) (tl : List Segment) :
    (response_data f v l tl).language = some l := by
  unfold response_data
  split <;> rfl

theorem response_data_success (f v l : List Char) (tl : List Segment) :
    (response_data f v l tl).success = true := by
  unfold response_data
  split <;> rfl

/-- C2: error classification checks the three substrings in source order with
first match winning: a failure text containing both "Video unavailable" and
"No transcripts were found" classifies as `no_transcript` with status 404,
and a text containing none of the three substrings classifies as `unknown`
with status 500. -/
theorem classifier_first_match_priority (msg : List Char) (vid : Option (List Char)) :
    (containsSub no_transcripts_msg msg = true →
     containsSub video_unavailable_msg msg = true →
      (transcript_error_response msg vid).1 = 404 ∧
      (transcript_error_response msg vid).2.error_type = some "no_transcript".toList) ∧
    (containsSub no_transcripts_msg msg = false →
     containsSub video_unavailable_msg msg = false →
     containsSub subtitles_disabled_msg msg = false →
      (transcript_error_response msg vid).1 = 500 ∧
      (transcript_error_response msg vid).2.error_type = some "unknown".toList) := by
  constructor
  · intro h1 _
    simp [transcript_error_response, h1]
  · intro h1 h2 h3
    simp [transcript_error_response, h1, h2, h3]

theorem classifier_first_match_priority_witness :
    ((transcript_error_response "Video unavailable: No transcripts were found".toList none).1 = 404 ∧
     (transcript_error_response "Video unavailable: No transcripts were found".toList none).2.error_type
       = some "no_transcript".toList) ∧
    ((transcript_error_response "boom".toList none).1 = 500 ∧
     (transcript_error_response "boom".toList none).2.error_type = some "unknown".toList) :=
  ⟨(classifier_first_match_priority _ _).1 (by decide) (by decide),
   (classifier_first_match_priority _ _).2 (by decide) (by decide) (by decide)⟩

/-- C3: in both formatter modes `duration_seconds` is the start of the last
segment plus its duration (0 for the empty sequence), and on the empty
sequence the word count is 0, the json-mode segment count is 0, and the
formatter is a total function. -/
theorem formatter_duration_invariant (format_type video_id language : List Char)
    (transcript_list : List Segment) :
    (∀ s, transcript_list.getLast? = some s →
      (response_data format_type video_id language transcript_list).duration_seconds
        = some (s.start + s.duration)) ∧
    (transcript_list = [] →
      (response_data format_type video_id language transcript_list).duration_seconds = some 0 ∧
      (response_data format_type video_id language transcript_list).word_count = some 0 ∧
      (format_type ≠ "text".toList →
        (response_data format_type video_id language transcript_list).segments_count = some 0)) := by
  constructor
  · intro s hs
    rw [response_data_duration, last_end, hs]
  · intro h
    subst h
    by_cases hf : format_type = text_lit
    · subst hf
      exact ⟨rfl, rfl, fun hne => absurd rfl hne⟩
    · have hf' : ¬((format_type == text_lit) = true) := fun hc => hf (eq_of_beq hc)
      rw [response_data, if_neg hf']
      exact ⟨rfl, rfl, fun _ => rfl⟩

theorem formatter_duration_invariant_witness :
    (response_data "json".toList "dQw4w9WgXcQ".toList "en".toList
      [Segment.mk "Hello world".toList 5 2]).duration_seconds = some 7 ∧
    (response_data "json".toList "dQw4w9WgXcQ".toList "en".toList []).word_count = some 0 := by
  refine ⟨?_, ?_⟩
  · have h := (formatter_duration_invariant "json".toList "dQw4w9WgXcQ".toList "en".toList
      [Segment.mk "Hello world".toList 5 2]).1 (Segment.mk "Hello world".toList 5 2) rfl
    exact h.trans (by norm_num)
  · exact ((formatter_duration_invariant "json".toList "dQw4w9WgXcQ".toList "en".toList []).2 rfl).2.1

/-- C4 counterexample: on a valid URL with an unclassifiable upstream
failure, the 500 `unknown` payload does NOT carry the extracted video id
(the `unknown` branch of the source emits no `video_id` key), refuting the claim
that the 500 case includes it. -/
theorem unknown_error_omits_video_id :
    (get_transcript extract_video_id (fun _ _ => Except.error "boom".toList)
      (some "https://youtu.be/dQw4w9WgXcQ".toList) none none).1 = 500 ∧
    (get_transcript extract_video_id (fun _ _ => Except.error "boom".toList)
      (some "https://youtu.be/dQw4w9WgXcQ".toList) none none).2.video_id = none := by
  decide

/-- C4 amended: on any upstream fetch failure after successful extraction
the status is 404 or 500; every 404 (classified) payload carries the
extracted video id, while the 500 (`unknown`) payload omits the `video_id`
key. -/
theorem error_payload_video_id_amended
    (fetch : List Char → List (List Char) → Except (List Char) (List Segment))
    (u : List Char) (language format_param : Option (List Char)) (vid msg : List Char)
    (h1 : extract_video_id u = some vid)
    (h2 : fetch vid [language.getD en_lit, en_lit] = Except.error msg) :
    ((get_transcript extract_video_id fetch (some u) language format_param).1 = 404 ∨
     (get_transcript extract_video_id fetch (some u) language format_param).1 = 500) ∧
    ((get_transcript extract_video_id fetch (some u) language format_param).1 = 404 →
      (get_transcript extract_video_id fetch (some u) language format_param).2.video_id
        = some (some vid)) ∧
    ((get_transcript extract_video_id fetch (some u) language format_param).1 = 500 →
      (get_transcript extract_video_id fetch (some u) language format_param).2.video_id = none ∧
      (get_transcript extract_video_id fetch (some u) language format_param).2.error_type
        = some "unknown".toList) := by
  have hfalsy := py_falsy_of_ne_nil (ne_nil_of_extract_some h1)
  have hrw : get_transcript extract_video_id fetch (some u) language format_param
      = transcript_error_response msg (some vid) := by
    simp [get_transcript, hfalsy, h1, h2]
  rw [hrw]
  by_cases c1 : containsSub no_transcripts_msg msg = true <;>
    by_cases c2 : containsSub video_unavailable_msg msg = true <;>
      by_cases c3 : containsSub subtitles_disabled_msg msg = true <;>
        simp [transcript_error_response, c1, c2, c3]

theorem error_payload_video_id_amended_witness :
    ((get_transcript extract_video_id (fun _ _ => Except.error "Subtitles are disabled".toList)
       (some "https://youtu.be/dQw4w9WgXcQ".toList) none none).1 = 404 ∨
     (get_transcript extract_video_id (fun _ _ => Except.error "Subtitles are disabled".toList)
       (some "https://youtu.be/dQw4w9WgXcQ".toList) none none).1 = 500) ∧
    ((get_transcript extract_video_id (fun _ _ => Except.error "Subtitles are disabled".toList)
       (some "https://youtu.be/dQw4w9WgXcQ".toList) none none).1 = 404 →
      (get_transcript extract_video_id (fun _ _ => Except.error "Subtitles are disabled".toList)
       (some "https://youtu.be/dQw4w9WgXcQ".toList) none none).2.video_id
        = some (some "dQw4w9WgXcQ".toList)) ∧
    ((get_transcript extract_video_id (fun _ _ => Except.error "Subtitles are disabled".toList)
       (some "https://youtu.be/dQw4w9WgXcQ".toList) none none).1 = 500 →
      (get_transcript extract_video_id (fun _ _ => Except.error "Subtitles are disabled".toList)
       (some "https://youtu.be/dQw4w9WgXcQ".toList) none none).2.video_id = none ∧
      (get_transcript extract_video_id (fun _ _ => Except.error "Subtitles are disabled".toList)
       (some "https://youtu.be/dQw4w9WgXcQ".toList) none none).2.error_type
        = some "unknown".toList) :=
  error_payload_video_id_amended _ "https://youtu.be/dQw4w9WgXcQ".toList none none
    "dQw4w9WgXcQ".toList "Subtitles are disabled".toList (by decide) rfl

/-- C6: any upstream failure during language listing yields HTTP 500 with
`success: false` and `error_type: "language_fetch_error"`; the transcript
404 classification table of the transcript endpoint is never consulted (the result is the
same 500 payload for every failure text, including classifiable ones). -/
theorem languages_failure_always_500
    (listTracks : List Char → Except (List Char) (List Track))
    (u vid msg : List Char)
    (h1 : extract_video_id u = some vid)
    (h2 : listTracks vid = Except.error msg) :
    get_available_languages extract_video_id listTracks (some u) =
      (500, { success := false, error := some msg,
              error_type := some "language_fetch_error".toList,
              debug_info := some "This might be a regional restriction or server IP blocking issue".toList }) := by
  have hfalsy := py_falsy_of_ne_nil (ne_nil_of_extract_some h1)
  simp [get_available_languages, hfalsy, h1, h2]

theorem languages_failure_always_500_witness :
    get_available_languages extract_video_id
      (fun _ => Except.error "Video unavailable".toList)
      (some "https://youtu.be/dQw4w9WgXcQ".toList) =
      (500, { success := false, error := some "Video unavailable".toList,
              error_type := some "language_fetch_error".toList,
              debug_info := some "This might be a regional restriction or server IP blocking issue".toList }) :=
  languages_failure_always_500 _ "https://youtu.be/dQw4w9WgXcQ".toList
    "dQw4w9WgXcQ".toList "Video unavailable".toList (by decide) rfl

/-- C7: a `/transcript` request with the `url` parameter missing (or falsy)
answers 400 "URL parameter is required", and one whose url does not parse
answers 400 "Invalid YouTube URL format"; in both cases the result is the
same for every upstream fetch capability, so the provider is never
consulted. -/
theorem transcript_400_short_circuit
    (fetch : List Char → List (List Char) → Except (List Char) (List Segment))
    (language format_param : Option (List Char)) :
    (∀ url, py_falsy url = true →
      get_transcript extract_video_id fetch url language format_param =
        (400, { success := false,
                error := some "URL parameter is required".toList,
                example_url := some "/transcript?url=https://www.youtube.com/watch?v=VIDEO_ID".toList })) ∧
    (∀ u : List Char, u ≠ [] → extract_video_id u = none →
      get_transcript extract_video_id fetch (some u) language format_param =
        (400, { success := false,
                error := some "Invalid YouTube URL format".toList,
                provided_url := some u })) := by
  constructor
  · intro url h
    simp [get_transcript, h]
  · intro u hne hex
    simp [get_transcript, py_falsy_of_ne_nil hne, hex]

theorem transcript_400_short_circuit_witness :
    get_transcript extract_video_id (fun _ _ => Except.ok []) none none none =
      (400, { success := false,
              error := some "URL parameter is required".toList,
              example_url := some "/transcript?url=https://www.youtube.com/watch?v=VIDEO_ID".toList }) ∧
    get_transcript extract_video_id (fun _ _ => Except.ok []) (some "notaurl".toList) none none =
      (400, { success := false,
              error := some "Invalid YouTube URL format".toList,
              provided_url := some "notaurl".toList }) :=
  ⟨(transcript_400_short_circuit _ _ _).1 none rfl,
   (transcript_400_short_circuit _ _ _).2 "notaurl".toList (by decide) (by decide)⟩

/-- C9: every successful `/transcript` response reports status 200 and
echoes the `language` request parameter (default "en") verbatim in the
`language` field, for every upstream fetch result — the language actually
delivered by the provider is never reported. -/
theorem language_echoes_request_param
    (fetch : List Char → List (List Char) → Except (List Char) (List Segment))
    (u : List Char) (language format_param : Option (List Char))
    (vid : List Char) (transcript_list : List Segment)
    (h1 : extract_video_id u = some vid)
    (h2 : fetch vid [language.getD en_lit, en_lit] = Except.ok transcript_list) :
    (get_transcript extract_video_id fetch (some u) language format_param).1 = 200 ∧
    (get_transcript extract_video_id fetch (some u) language format_param).2.language
      = some (language.getD "en".toList) ∧
    (get_transcript extract_video_id fetch (some u) language format_param).2.success = true := by
  have hfalsy := py_falsy_of_ne_nil (ne_nil_of_extract_some h1)
  have hrw : get_transcript extract_video_id fetch (some u) language format_param
      = (200, response_data (format_param.getD json_lit) vid
          (language.getD en_lit) transcript_list) := by
    simp [get_transcript, hfalsy, h1, h2]
  rw [hrw]
  exact ⟨rfl, response_data_language _ _ _ _, response_data_success _ _ _ _⟩

theorem language_echoes_request_param_witness :
    (get_transcript extract_video_id
      (fun _ _ => Except.ok [Segment.mk "hello".toList 0 1])
      (some "https://youtu.be/dQw4w9WgXcQ".toList) (some "de".toList) none).1 = 200 ∧
    (get_transcript extract_video_id
      (fun _ _ => Except.ok [Segment.mk "hello".toList 0 1])
      (some "https://youtu.be/dQw4w9WgXcQ".toList) (some "de".toList) none).2.language
      = some "de".toList ∧
    (get_transcript extract_video_id
      (fun _ _ => Except.ok [Segment.mk "hello".toList 0 1])
      (some "https://youtu.be/dQw4w9WgXcQ".toList) (some "de".toList) none).2.success = true :=
  language_echoes_request_param _ "https://youtu.be/dQw4w9WgXcQ".toList
    (some "de".toList) none "dQw4w9WgXcQ".toList [Segment.mk "hello".toList 0 1]
    (by decide) rfl

/-- C10: a `/transcript` request whose `url` parameter is present but equal
to the empty string is handled exactly like a missing parameter: 400 with
"URL parameter is required", for every identifier extractor and every fetch
capability — so `extract_video_id` is never invoked on the empty string. -/
theorem empty_url_treated_as_missing
    (extractor : List Char → Option (List Char))
    (fetch : List Char → List (List Char) → Except (List Char) (List Segment))
    (language format_param : Option (List Char)) :
    get_transcript extractor fetch (some []) language format_param =
      (400, { success := false,
              error := some "URL parameter is required".toList,
              example_url := some "/transcript?url=https://www.youtube.com/watch?v=VIDEO_ID".toList }) :=
  rfl

theorem splitAux_sep (sep : Char) (hsep : pyIsSpace sep = true) (b : List Char) :
    ∀ (a w : List Char),
      (splitAux (a ++ sep :: b) w).length
        = (splitAux a w).length + (splitAux b []).length := by
  intro a
  induction a with
  | nil =>
    intro w
    by_cases hw : w.isEmpty = true <;> simp [splitAux, hsep, hw] <;> omega
  | cons c cs ih =>
    intro w
    by_cases hc : pyIsSpace c = true
    · by_cases hw : w.isEmpty = true <;> simp [splitAux, hc, hw, ih] <;> omega
    · simp [splitAux, hc, ih]

theorem wc_joinNl (l : List (List Char)) :
    (pySplit (joinNl l)).length = (l.map (fun t => (pySplit t).length)).sum := by
  induction l with
  | nil => rfl
  | cons x xs ih =>
    cases xs with
    | nil => simp [joinNl, pySplit]
    | cons y ys =>
      have h := splitAux_sep '\n' rfl (joinNl (y :: ys)) x []
      simp only [pySplit] at ih ⊢
      rw [joinNl, h, ih]
      simp [pySplit]

theorem json_text_word_count_eq (transcript_list : List Segment) :
    List.sum (transcript_list.map (fun item => (pySplit item.text).length))
      = (pySplit (format_transcript transcript_list)).length := by
  rw [format_transcript, wc_joinNl, List.map_map]
  rfl

/-- C5 counterexample, a proof of the negation of the may-differ part of
the claim: there is no segment sequence on which the json-mode word
count and the text-mode word count disagree — the flattening separator is
whitespace, so they always coincide. -/
theorem word_counts_never_differ :
    ¬ ∃ transcript_list : List Segment,
      (response_data "json".toList [] [] transcript_list).word_count ≠
      (response_data "text".toList [] [] transcript_list).word_count := by
  rintro ⟨tl, hne⟩
  apply hne
  have hj : (response_data "json".toList [] [] tl).word_count
      = some (List.sum (tl.map (fun item => (pySplit item.text).length))) := rfl
  have ht : (response_data "text".toList [] [] tl).word_count
      = some ((pySplit (format_transcript tl)).length) := rfl
  rw [hj, ht, json_text_word_count_eq]

/-- C5 amended: the json-mode word count is the sum of the per-segment
whitespace-split word counts, the text-mode word count is the
whitespace-split word count of the flattened text, each computed from its
own source; because the flattening joins segment texts with whitespace, the
two counts are equal for every segment sequence (they cannot differ). -/
theorem word_count_sources_amended (video_id language : List Char)
    (transcript_list : List Segment) :
    (response_data "json".toList video_id language transcript_list).word_count
      = some (List.sum (transcript_list.map (fun item => (pySplit item.text).length))) ∧
    (response_data "text".toList video_id language transcript_list).word_count
      = some ((pySplit (format_transcript transcript_list)).length) ∧
    (response_data "json".toList video_id language transcript_list).word_count
      = (response_data "text".toList video_id language transcript_list).word_count := by
  refine ⟨rfl, rfl, ?_⟩
  have hj : (response_data "json".toList video_id language transcript_list).word_count
      = some (List.sum (transcript_list.map (fun item => (pySplit item.text).length))) := rfl
  have ht : (response_data "text".toList video_id language transcript_list).word_count
      = some ((pySplit (format_transcript transcript_list)).length) := rfl
  rw [hj, ht, json_text_word_count_eq]

theorem search_eq_none_iff (p : List Char → Option (List Char)) (s : List Char) :
    search p s = none ↔ ∀ i : Nat, p (s.drop i) = none := by
  induction s with
  | nil =>
    constructor
    · intro h i
      rw [List.drop_nil]
      exact h
    · intro h
      exact h 0
  | cons c rest ih =>
    rw [show search p (c :: rest)
        = (match p (c :: rest) with | some v => some v | none => search p rest) from rfl]
    cases hp : p (c :: rest) with
    | some v =>
      simp only []
      constructor
      · intro h
        exact absurd h (by simp)
      · intro hall
        have h0 := hall 0
        rw [List.drop_zero, hp] at h0
        exact absurd h0 (by simp)
    | none =>
      simp only []
      rw [ih]
      constructor
      · intro hall i
        cases i with
        | zero =>
          rw [List.drop_zero]
          exact hp
        | succ n =>
          rw [List.drop_succ_cons]
          exact hall n
      · intro hall i
        have h := hall (i + 1)
        rw [List.drop_succ_cons] at h
        exact h

/-- C1 counterexample: `extract_video_id` does NOT return `None` for every
non-YouTube URL or for every URL whose candidate segment is not exactly 11
characters: on the non-YouTube URL `https://vimeo.com/123456789012`, whose
candidate segment has 12 characters, it returns the first 11 characters of
the run (the generic first pattern matches any `/` followed by 11
identifier characters). -/
theorem extract_nonyoutube_counterexample :
    extract_video_id "https://vimeo.com/123456789012".toList
      = some "12345678901".toList := by
  decide

/-- C1 amended: `extract_video_id` is a total function (it returns an
`Option`, never an exception); it returns `None` for the empty string, and
in general it returns `None` exactly when no start position of the URL
matches any of the five patterns — so a non-YouTube URL yields `None` only
when it contains no `v=` or `/` followed by 11 identifier characters (and
no other pattern occurrence), a URL whose candidate segment is shorter than
11 identifier characters yields `None`, while a candidate longer than 11
yields the first 11 characters of the run rather than `None`. -/
theorem extract_none_characterization :
    extract_video_id [] = none ∧
    (∀ url : List Char,
      extract_video_id url = none ↔
        ∀ i : Nat,
          pat1 (url.drop i) = none ∧
          patLit embedLit (url.drop i) = none ∧
          patLit watchLit (url.drop i) = none ∧
          patLit youtuLit (url.drop i) = none ∧
          patLit shortsLit (url.drop i) = none) ∧
    extract_video_id "https://youtu.be/short".toList = none ∧
    extract_video_id "https://vimeo.com/abcdefghijkl".toList
      = some "abcdefghijk".toList := by
  refine ⟨by decide, ?_, by decide, by decide⟩
  intro url
  have base : extract_video_id url = none ↔
      (search pat1 url = none ∧ search (patLit embedLit) url = none ∧
       search (patLit watchLit) url = none ∧ search (patLit youtuLit) url = none ∧
       search (patLit shortsLit) url = none) := by
    simp [extract_video_id, patterns]
  rw [base, search_eq_none_iff, search_eq_none_iff, search_eq_none_iff,
      search_eq_none_iff, search_eq_none_iff]
  constructor
  · rintro ⟨h1, h2, h3, h4, h5⟩ i
    exact ⟨h1 i, h2 i, h3 i, h4 i, h5 i⟩
  · intro h
    exact ⟨fun i => (h i).1, fun i => (h i).2.1, fun i => (h i).2.2.1,
           fun i => (h i).2.2.2.1, fun i => (h i).2.2.2.2⟩

theorem grabN_succ_cons (n : Nat) (c : Char) (rest : List Char) :
    grabN (n + 1) (c :: rest)
      = if isIdChar c then Option.map (fun l => c :: l) (grabN n rest) else none := rfl

theorem grabN_len_append (id t : List Char) (h2 : id.all isIdChar = true) :
    grabN id.length (id ++ t) = some id := by
  induction id with
  | nil => rfl
  | cons c cs ih =>
    rw [List.all_cons, Bool.and_eq_true] at h2
    rw [List.cons_append, List.length_cons]
    rw [show grabN (cs.length + 1) (c :: (cs ++ t))
        = if isIdChar c then Option.map (fun l => c :: l) (grabN cs.length (cs ++ t)) else none
        from rfl]
    rw [if_pos h2.1, ih h2.2]
    rfl

/-- C8: for each recognized URL shape — `watch?v=<id>`, `/embed/<id>`,
`youtu.be/<id>`, `/shorts/<id>`, and a bare trailing id — and for every
11-character identifier, `extract_video_id` returns exactly that identifier
regardless of what is appended after it (query parameters, trailing path
segments, or any other suffix). -/
theorem extract_stable_across_shapes (id suffix : List Char)
    (h1 : id.length = 11) (h2 : id.all isIdChar = true) :
    extract_video_id ("https://www.youtube.com/watch?v=".toList ++ (id ++ suffix)) = some id ∧
    extract_video_id ("https://www.youtube.com/embed/".toList ++ (id ++ suffix)) = some id ∧
    extract_video_id ("https://youtu.be/".toList ++ (id ++ suffix)) = some id ∧
    extract_video_id ("https://www.youtube.com/shorts/".toList ++ (id ++ suffix)) = some id ∧
    extract_video_id ("https://www.youtube.com/".toList ++ (id ++ suffix)) = some id := by
  have hw : ∀ t, grabN 11 (id ++ t) = some id := fun t => by
    rw [show (11 : Nat) = id.length from h1.symm]
    exact grabN_len_append id t h2
  refine ⟨?_, ?_, ?_, ?_, ?_⟩ <;>
    simp +decide [extract_video_id, patterns, List.findSome?, search, pat1, take11Id,
      grabN_succ_cons, hw]

theorem extract_stable_across_shapes_witness :
    extract_video_id "https://www.youtube.com/watch?v=dQw4w9WgXcQ&t=42s".toList
      = some "dQw4w9WgXcQ".toList ∧
    extract_video_id "https://www.youtube.com/embed/dQw4w9WgXcQ?rel=0".toList
      = some "dQw4w9WgXcQ".toList ∧
    extract_video_id "https://youtu.be/dQw4w9WgXcQ?si=abc".toList
      = some "dQw4w9WgXcQ".toList ∧
    extract_video_id "https://www.youtube.com/shorts/dQw4w9WgXcQ/extra".toList
      = some "dQw4w9WgXcQ".toList ∧
    extract_video_id "https://www.youtube.com/dQw4w9WgXcQ".toList
      = some "dQw4w9WgXcQ".toList :=
  ⟨(extract_stable_across_shapes "dQw4w9WgXcQ".toList "&t=42s".toList
      (by decide) (by decide)).1,
   (extract_stable_across_shapes "dQw4w9WgXcQ".toList "?rel=0".toList
      (by decide) (by decide)).2.1,
   (extract_stable_across_shapes "dQw4w9WgXcQ".toList "?si=abc".toList
      (by decide) (by decide)).2.2.1,
   (extract_stable_across_shapes "dQw4w9WgXcQ".toList "/extra".toList
      (by decide) (by decide)).2.2.2.1,
   (extract_stable_across_shapes "dQw4w9WgXcQ".toList [] (by decide) (by decide)).2.2.2.2⟩

end YTApp
